import Mathlib

/-!
Verification of the paramic signal generator.

The Rust source is embedded shallowly: `f32`/`f64` arithmetic is modelled
over `ℚ` (phase accumulators, where every operation used is exact) and `ℝ`
(trigonometric curve evaluation), mutable structs become explicit state
passing, and each Lean definition mirrors one Rust item of
`src/parametric_equation.rs`, `src/oscillators.rs` or `src/lib.rs`.
-/

open Real
open scoped Classical

/-- The six integer shape coefficients of `EquationA`
(`src/parametric_equation.rs`). Rust stores them as `i32`; we use `ℤ`. -/
structure EquationA where
  a : ℤ
  b : ℤ
  c : ℤ
  d : ℤ
  j : ℤ
  k : ℤ
deriving DecidableEq

/-- `EquationA::get_position`: `x = cos(t·a) − cos(t·b)^j`,
`y = sin(t·c) − sin(t·d)^k` (`powi` on a possibly negative `i32` exponent
is integer zpow). -/
noncomputable def EquationA.get_position (e : EquationA) (t : ℝ) : ℝ × ℝ :=
  (Real.cos (t * e.a) - Real.cos (t * e.b) ^ e.j,
   Real.sin (t * e.c) - Real.sin (t * e.d) ^ e.k)

/-- The loop condition of `EquationA::get_period`: both coordinates of
`get_position i` are strictly positive. -/
def EquationA.posAt (e : EquationA) (i : ℕ) : Prop :=
  0 < (e.get_position i).1 ∧ 0 < (e.get_position i).2

/-- The search loop of `EquationA::get_period`, starting at index `i`:
`for i in 1..1000 { if x > 0 && y > 0 { return i as f64 } }; 1000.0`. -/
noncomputable def EquationA.getPeriodFrom (e : EquationA) (i : ℕ) : ℝ :=
  if i < 1000 then
    if e.posAt i then (i : ℝ) else e.getPeriodFrom (i + 1)
  else 1000
termination_by 1000 - i

/-- `EquationA::get_period`: brute-force search over `t = 1, 2, …, 999`
for the first point with `x > 0` and `y > 0`, falling back to `1000.0`. -/
noncomputable def EquationA.get_period (e : EquationA) : ℝ :=
  e.getPeriodFrom 1

/-- State of `SineOscillator` (`src/oscillators.rs`). The `f32` fields are
modelled as exact rationals: every operation performed on them is field
arithmetic and comparison. -/
structure SineOscillator where
  sample_rate : ℚ
  phase : ℚ
  frequency : ℚ
deriving DecidableEq

/-- `SineOscillator::new`: phase `0.0`, frequency `440.0`. -/
def SineOscillator.new (sample_rate : ℚ) : SineOscillator :=
  { sample_rate := sample_rate, phase := 0, frequency := 440 }

/-- `SineOscillator::sample`: advance phase by `frequency / sample_rate`,
subtract `1.0` once if the result exceeds `1.0`, output `sin(phase·τ)`.
Returns the output together with the updated state. -/
noncomputable def SineOscillator.sample (o : SineOscillator) :
    ℝ × SineOscillator :=
  let phase0 := o.phase + o.frequency / o.sample_rate
  let phase := if phase0 > 1 then phase0 - 1 else phase0
  (Real.sin ((phase : ℝ) * (2 * Real.pi)), { o with phase := phase })

/-- State of `SquareOscillator` (`src/oscillators.rs`). -/
structure SquareOscillator where
  sample_rate : ℚ
  phase : ℚ
  frequency : ℚ
deriving DecidableEq

/-- `SquareOscillator::new`: phase `0.0`, frequency `440.0`. -/
def SquareOscillator.new (sample_rate : ℚ) : SquareOscillator :=
  { sample_rate := sample_rate, phase := 0, frequency := 440 }

/-- `SquareOscillator::sample`: same phase step as the sine variant, output
`+1.0` for phase below `0.5`, else `−1.0`. -/
def SquareOscillator.sample (o : SquareOscillator) : ℚ × SquareOscillator :=
  let phase0 := o.phase + o.frequency / o.sample_rate
  let phase := if phase0 > 1 then phase0 - 1 else phase0
  (if phase < 1/2 then 1 else -1, { o with phase := phase })

/-- State of `ParametricOscillatorA` (`src/oscillators.rs`). Its phase and
period interact with real-valued curve evaluation, so all numeric fields
are modelled over `ℝ` (the `f64 as f32` narrowing of `period` is dropped:
every period produced by `get_period` is a small whole number, exact in
both formats). -/
structure ParametricOscillatorA where
  sample_rate : ℝ
  phase : ℝ
  frequency : ℝ
  equation : EquationA
  period : ℝ

/-- `ParametricOscillatorA::new`: phase `0.0`, frequency `440.0`, period
computed once from the supplied equation. -/
noncomputable def ParametricOscillatorA.new (sample_rate : ℝ)
    (equation : EquationA) : ParametricOscillatorA :=
  { sample_rate := sample_rate, phase := 0, frequency := 440,
    equation := equation, period := equation.get_period }

/-- `ParametricOscillatorA::set_sample_rate`. -/
noncomputable def ParametricOscillatorA.set_sample_rate (o : ParametricOscillatorA)
    (sample_rate : ℝ) : ParametricOscillatorA :=
  { o with sample_rate := sample_rate }

/-- `ParametricOscillatorA::set_frequency`. -/
noncomputable def ParametricOscillatorA.set_frequency (o : ParametricOscillatorA)
    (frequency : ℝ) : ParametricOscillatorA :=
  { o with frequency := frequency }

/-- `ParametricOscillatorA::set_equation`: stores the new equation. The
source updates no other field. -/
noncomputable def ParametricOscillatorA.set_equation (o : ParametricOscillatorA)
    (equation : EquationA) : ParametricOscillatorA :=
  { o with equation := equation }

/-- `ParametricOscillatorA::sample`: advance phase by
`frequency / sample_rate`, subtract the stored `period` once if the result
exceeds it, evaluate the curve at the new phase and output
`sqrt(x² + y²) − 1`. -/
noncomputable def ParametricOscillatorA.sample (o : ParametricOscillatorA) :
    ℝ × ParametricOscillatorA :=
  let phase0 := o.phase + o.frequency / o.sample_rate
  let phase := if phase0 > o.period then phase0 - o.period else phase0
  let xy := o.equation.get_position phase
  (Real.sqrt (xy.1 ^ 2 + xy.2 ^ 2) - 1, { o with phase := phase })

/-- Observable control state of the `nih_plug` `Smoother` used for the
note gain: a current value, a target, the configured linear ramp time in
milliseconds, and the remaining step count computed from the sample rate
when a target is set. Per-sample interpolation details are not needed by
the claims and are omitted. -/
structure Smoother where
  smoothing_ms : ℝ
  current : ℝ
  target : ℝ
  steps_left : ℝ

/-- `Smoother::set_target(sample_rate, target)`: records the target and
derives the ramp length from the sample rate and the configured time. -/
noncomputable def Smoother.set_target (s : Smoother) (sample_rate : ℝ) (target : ℝ) :
    Smoother :=
  { s with target := target,
           steps_left := sample_rate * s.smoothing_ms / 1000 }

/-- `Smoother::reset(value)`: snaps current and target to `value`
immediately, with no ramp left. -/
noncomputable def Smoother.reset (s : Smoother) (value : ℝ) : Smoother :=
  { s with current := value, target := value, steps_left := 0 }

/-- One incoming event, as matched by `Paramic::process`
(`src/lib.rs`): note-on, note-off, polyphonic pressure, or any other kind
(ignored by the match). `timing` is the in-block sample offset. -/
inductive NoteEvent where
  | noteOn (timing : ℕ) (note : ℕ) (velocity : ℝ)
  | noteOff (timing : ℕ) (note : ℕ)
  | polyPressure (timing : ℕ) (note : ℕ) (pressure : ℝ)
  | other (timing : ℕ)

/-- `NoteEvent::timing()`. -/
def NoteEvent.timing : NoteEvent → ℕ
  | .noteOn t _ _ => t
  | .noteOff t _ => t
  | .polyPressure t _ _ => t
  | .other t => t

/-- `util::midi_note_to_freq`: the equal-tempered mapping
`440 · 2^((note − 69)/12)`. -/
noncomputable def midi_note_to_freq (note : ℕ) : ℝ :=
  2 ^ (((note : ℝ) - 69) / 12) * 440

/-- The plugin state mutated by `Paramic::process` and `Paramic::reset`
(`src/lib.rs`). -/
structure Paramic where
  sample_rate : ℝ
  oscillator : ParametricOscillatorA
  midi_note_id : ℕ
  midi_note_freq : ℝ
  midi_note_gain : Smoother

/-- The event match arms inside `Paramic::process`: note-on always stores
the note id, its frequency and the velocity target; note-off and pressure
are guarded by `note == self.midi_note_id`; every other event is ignored. -/
noncomputable def Paramic.applyEvent (p : Paramic) : NoteEvent → Paramic
  | .noteOn _ note velocity =>
      { p with midi_note_id := note,
               midi_note_freq := midi_note_to_freq note,
               midi_note_gain :=
                 p.midi_note_gain.set_target p.sample_rate velocity }
  | .noteOff _ note =>
      if note = p.midi_note_id then
        { p with midi_note_gain := p.midi_note_gain.set_target p.sample_rate 0 }
      else p
  | .polyPressure _ note pressure =>
      if note = p.midi_note_id then
        { p with midi_note_gain :=
            p.midi_note_gain.set_target p.sample_rate pressure }
      else p
  | .other _ => p

/-- The inner `while let Some(event) = next_event` loop of
`Paramic::process` at sample index `sample_id`: keep consuming the queue
head while `event.timing() > sample_id` is false, i.e. while
`timing ≤ sample_id`; stop at the first later event. Returns the updated
state and the unconsumed remainder of the queue. -/
noncomputable def Paramic.drainEvents (p : Paramic) (sample_id : ℕ) :
    List NoteEvent → Paramic × List NoteEvent
  | [] => (p, [])
  | e :: rest =>
      if e.timing > sample_id then (p, e :: rest)
      else (p.applyEvent e).drainEvents sample_id rest

/-- `Paramic::reset`: note id to `0`, note frequency to `1.0`, note gain
smoother snapped to `0.0`. -/
noncomputable def Paramic.reset (p : Paramic) : Paramic :=
  { p with midi_note_id := 0,
           midi_note_freq := 1,
           midi_note_gain := p.midi_note_gain.reset 0 }

/-- `Paramic::default`: pre-initialization sample rate `1.0`, the
oscillator built from the default parameter values
`(a,b,c,d,j,k) = (1,7,1,7,3,3)`, no active note (`midi_note_id = 0`,
`midi_note_freq = 1.0`), and a linear note-gain smoother with a 5 ms ramp
starting at zero. -/
noncomputable def Paramic.default : Paramic :=
  { sample_rate := 1,
    oscillator := ParametricOscillatorA.new 1 (EquationA.mk 1 7 1 7 3 3),
    midi_note_id := 0,
    midi_note_freq := 1,
    midi_note_gain :=
      { smoothing_ms := 5, current := 0, target := 0, steps_left := 0 } }

/-- `util::db_to_gain_fast`: `exp(dbs · ln 10 / 20)`. -/
noncomputable def db_to_gain_fast (dbs : ℝ) : ℝ :=
  Real.exp (dbs * (Real.log 10 / 20))

/-- The channel-write loop at the end of each `Paramic::process` sample
iteration: `for sample in channel_samples { *sample = wave *
util::db_to_gain_fast(gain) }`. -/
noncomputable def writeChannelSamples (wave gain : ℝ)
    (channel_samples : List ℝ) : List ℝ :=
  channel_samples.map fun _ => wave * db_to_gain_fast gain

theorem getPeriodFrom_of_pos (e : EquationA) (i : ℕ) (hi : i < 1000)
    (h : e.posAt i) : e.getPeriodFrom i = (i : ℝ) := by
  rw [EquationA.getPeriodFrom]
  simp [hi, h]

theorem getPeriodFrom_of_neg (e : EquationA) (i : ℕ) (hi : i < 1000)
    (h : ¬ e.posAt i) : e.getPeriodFrom i = e.getPeriodFrom (i + 1) := by
  rw [EquationA.getPeriodFrom]
  simp [hi, h]

theorem getPeriodFrom_of_ge (e : EquationA) (i : ℕ) (hi : 1000 ≤ i) :
    e.getPeriodFrom i = 1000 := by
  rw [EquationA.getPeriodFrom]
  simp [Nat.not_lt.mpr hi]

/-- If no index in `[i, 1000)` satisfies the condition, the search loop
falls through and returns `1000`. -/
theorem getPeriodFrom_eq_1000 (e : EquationA) (i : ℕ)
    (h : ∀ t, i ≤ t → t < 1000 → ¬ e.posAt t) :
    e.getPeriodFrom i = 1000 := by
  by_cases hi : i < 1000
  · rw [getPeriodFrom_of_neg e i hi (h i le_rfl hi)]
    exact getPeriodFrom_eq_1000 e (i + 1) fun t ht ht' => h t (by omega) ht'
  · exact getPeriodFrom_of_ge e i (by omega)
termination_by 1000 - i

/-- The search loop returns the first index `t ≥ i` below `1000` that
satisfies the condition. -/
theorem getPeriodFrom_eq_first (e : EquationA) (i t : ℕ)
    (hit : i ≤ t) (ht : t < 1000) (hpos : e.posAt t)
    (hmin : ∀ s, i ≤ s → s < t → ¬ e.posAt s) :
    e.getPeriodFrom i = (t : ℝ) := by
  rcases eq_or_lt_of_le hit with rfl | hlt
  · exact getPeriodFrom_of_pos e i ht hpos
  · rw [getPeriodFrom_of_neg e i (by omega) (hmin i le_rfl hlt)]
    exact getPeriodFrom_eq_first e (i + 1) t (by omega) ht hpos
      fun s hs hs' => hmin s (by omega) hs'
termination_by 1000 - i

/-- With `c = d` and `k = 1` the second coordinate is identically zero, so
no loop index ever satisfies `y > 0`. -/
theorem posAt_false_of_c_eq_d (a b : ℤ) (cc : ℤ) (j : ℤ) (t : ℕ) :
    ¬ (EquationA.mk a b cc cc j 1).posAt t := by
  rintro ⟨-, hy⟩
  simp only [EquationA.posAt, EquationA.get_position, zpow_one, sub_self,
    lt_self_iff_false] at hy

/-- The equation `(1,7,3,3,1,1)` makes the brute-force search fail at every
index, so `get_period` returns the fallback `1000`. -/
theorem get_period_1733 :
    (EquationA.mk 1 7 3 3 1 1).get_period = 1000 := by
  rw [EquationA.get_period]
  exact getPeriodFrom_eq_1000 _ 1 fun t _ _ => posAt_false_of_c_eq_d 1 7 3 1 t

theorem sin_six_neg : Real.sin 6 < 0 := by
  have h := Real.sin_sub_two_pi 6
  have h3 := Real.pi_gt_three
  have h4 := Real.pi_lt_d2
  rw [← h]
  exact Real.sin_neg_of_neg_of_neg_pi_lt (by linarith) (by linarith)

/-- The equation `(1,2,1,6,1,1)` satisfies the search condition already at
`t = 1`: `x(1) = cos 1 − cos 2 > 0` and `y(1) = sin 1 − sin 6 > 0`. -/
theorem posAt_1261_one : (EquationA.mk 1 2 1 6 1 1).posAt 1 := by
  constructor
  · simp only [EquationA.get_position, zpow_one]
    norm_num
    nlinarith [Real.cos_one_pos, Real.cos_two_neg]
  · simp only [EquationA.get_position, zpow_one]
    norm_num
    have h1 : 0 < Real.sin 1 :=
      Real.sin_pos_of_pos_of_lt_pi one_pos (by linarith [Real.pi_gt_three])
    nlinarith [sin_six_neg]

/-- The equation `(1,2,1,6,1,1)` has brute-force period `1`. -/
theorem get_period_1261 :
    (EquationA.mk 1 2 1 6 1 1).get_period = 1 := by
  have h := getPeriodFrom_eq_first (EquationA.mk 1 2 1 6 1 1) 1 1 le_rfl
    (by norm_num) posAt_1261_one (fun s hs hs' => absurd (lt_of_le_of_lt hs hs')
      (lt_irrefl 1))
  rw [EquationA.get_period]
  simpa using h

/-- No natural number equals `2π`, since `6 < 2π < 7`. -/
theorem natCast_ne_two_pi (n : ℕ) : (n : ℝ) ≠ 2 * Real.pi := by
  rcases le_or_lt n 6 with h | h
  · have : (n : ℝ) ≤ 6 := by exact_mod_cast h
    have := Real.pi_gt_three
    linarith
  · have : (7 : ℝ) ≤ (n : ℝ) := by exact_mod_cast h
    have := Real.pi_lt_d2
    linarith

/-- No natural number equals `2π / g` for a positive natural `g`. -/
theorem natCast_ne_two_pi_div (n g : ℕ) (hg : 1 ≤ g) :
    (n : ℝ) ≠ 2 * Real.pi / g := by
  intro h
  have hg0 : (g : ℝ) ≠ 0 := by positivity
  have : ((n * g : ℕ) : ℝ) = 2 * Real.pi := by
    push_cast
    field_simp at h
    linarith
  exact natCast_ne_two_pi (n * g) this

/-- The search loop always returns a whole number between its start index
and `1000`. -/
theorem getPeriodFrom_mem_range (e : EquationA) (i : ℕ) (hi : i ≤ 1000) :
    ∃ n : ℕ, i ≤ n ∧ n ≤ 1000 ∧ e.getPeriodFrom i = (n : ℝ) := by
  by_cases hlt : i < 1000
  · by_cases hp : e.posAt i
    · exact ⟨i, le_rfl, by omega, getPeriodFrom_of_pos e i hlt hp⟩
    · obtain ⟨n, hn1, hn2, hn3⟩ := getPeriodFrom_mem_range e (i + 1) (by omega)
      exact ⟨n, by omega, hn2, by rw [getPeriodFrom_of_neg e i hlt hp, hn3]⟩
  · exact ⟨1000, by omega, le_rfl, getPeriodFrom_of_ge e i (by omega)⟩
termination_by 1000 - i

/-- Claim C1, counterexample: at coefficients `a=1, b=7, c=3, d=3, j=1,
k=1` (all ≥ 1) the period operation returns `1000`, not the closed form
`2π / gcd(gcd(a,b), gcd(c,d)) = 2π`, so `get_period` does not implement
the closed-form formula the claim states. -/
theorem claim_C1_counterexample :
    (EquationA.mk 1 7 3 3 1 1).get_period = 1000 ∧
    (EquationA.mk 1 7 3 3 1 1).get_period ≠ 2 * Real.pi := by
  refine ⟨get_period_1733, ?_⟩
  rw [get_period_1733]
  have h := natCast_ne_two_pi 1000
  simpa using h

/-- Claim C1 as amended: `get_period` is the brute-force search, so it
always returns a whole number between `1` and `1000`, and in particular it
never equals `2π / g` for any positive integer `g` — the closed-form value
`2π / gcd(gcd(a,b), gcd(c,d))` is never returned, for any coefficients. -/
theorem claim_C1_amended (e : EquationA) (g : ℕ) (hg : 1 ≤ g) :
    (∃ n : ℕ, 1 ≤ n ∧ n ≤ 1000 ∧ e.get_period = (n : ℝ)) ∧
    e.get_period ≠ 2 * Real.pi / g := by
  obtain ⟨n, hn1, hn2, hn3⟩ := getPeriodFrom_mem_range e 1 (by norm_num)
  have hp : e.get_period = (n : ℝ) := by rw [EquationA.get_period]; exact hn3
  refine ⟨⟨n, hn1, hn2, hp⟩, ?_⟩
  rw [hp]
  exact natCast_ne_two_pi_div n g hg

/-- Witness for the amended claim C1 at `(1,7,3,3,1,1)` and `g = 1`. -/
theorem claim_C1_witness :
    1 ≤ 1 ∧
    ((∃ n : ℕ, 1 ≤ n ∧ n ≤ 1000 ∧
        (EquationA.mk 1 7 3 3 1 1).get_period = (n : ℝ)) ∧
      (EquationA.mk 1 7 3 3 1 1).get_period ≠ 2 * Real.pi / (1 : ℕ)) :=
  ⟨le_rfl, claim_C1_amended (EquationA.mk 1 7 3 3 1 1) 1 le_rfl⟩

/-- Claim C2, divergence at a concrete input: construct the oscillator
with equation `(1,7,3,3,1,1)` (stored period `1000`), then call
`set_equation` with `(1,2,1,6,1,1)` (whose period is `1`). The stored
period is still `1000`, not the new equation's period, and the next
`sample()` call leaves a phase of `2` unwrapped (`2 + 440/44100 ≤ 1000`)
even though it already exceeds the new equation's period `1`: the phase is
compared against the construction-time period, not the period of the newly
stored equation. -/
theorem claim_C2_code_divergence :
    ((ParametricOscillatorA.new 44100 (EquationA.mk 1 7 3 3 1 1)).set_equation
        (EquationA.mk 1 2 1 6 1 1)).period = 1000 ∧
    ((ParametricOscillatorA.new 44100 (EquationA.mk 1 7 3 3 1 1)).set_equation
        (EquationA.mk 1 2 1 6 1 1)).equation.get_period = 1 ∧
    ({ (ParametricOscillatorA.new 44100 (EquationA.mk 1 7 3 3 1 1)).set_equation
          (EquationA.mk 1 2 1 6 1 1) with phase := 2 }).sample.2.phase
      = 2 + 440 / 44100 ∧
    (2 + 440 / 44100 : ℝ) >
      ((ParametricOscillatorA.new 44100 (EquationA.mk 1 7 3 3 1 1)).set_equation
          (EquationA.mk 1 2 1 6 1 1)).equation.get_period := by
  have hper : ((ParametricOscillatorA.new 44100
      (EquationA.mk 1 7 3 3 1 1)).set_equation
      (EquationA.mk 1 2 1 6 1 1)).period = 1000 := by
    simp [ParametricOscillatorA.set_equation, ParametricOscillatorA.new,
      get_period_1733]
  have heq : ((ParametricOscillatorA.new 44100
      (EquationA.mk 1 7 3 3 1 1)).set_equation
      (EquationA.mk 1 2 1 6 1 1)).equation = EquationA.mk 1 2 1 6 1 1 := by
    simp [ParametricOscillatorA.set_equation, ParametricOscillatorA.new]
  have hfreq : ((ParametricOscillatorA.new 44100
      (EquationA.mk 1 7 3 3 1 1)).set_equation
      (EquationA.mk 1 2 1 6 1 1)).frequency = 440 := by
    simp [ParametricOscillatorA.set_equation, ParametricOscillatorA.new]
  have hsr : ((ParametricOscillatorA.new 44100
      (EquationA.mk 1 7 3 3 1 1)).set_equation
      (EquationA.mk 1 2 1 6 1 1)).sample_rate = 44100 := by
    simp [ParametricOscillatorA.set_equation, ParametricOscillatorA.new]
  refine ⟨hper, by rw [heq, get_period_1261], ?_,
    by rw [heq, get_period_1261]; norm_num⟩
  simp only [ParametricOscillatorA.sample]
  rw [hper, hfreq, hsr]
  norm_num

/-- Claim C3, counterexample: with the strictly positive sample rate
`1.0` (the plugin's own pre-initialization default) and the constructor's
default frequency `440.0`, a single `sample()` call on a fresh sine
oscillator leaves the phase at `439`, far outside the declared range
`[0, 1)`: the single conditional subtraction does not preserve the
phase-in-range invariant for every valid sample rate and frequency. -/
theorem claim_C3_counterexample :
    (SineOscillator.new 1).sample.2.phase = 439 ∧
    ¬ (SineOscillator.new 1).sample.2.phase < 1 := by
  constructor
  · simp only [SineOscillator.sample, SineOscillator.new]
    norm_num
  · simp only [SineOscillator.sample, SineOscillator.new]
    norm_num

/-- Claim C3 as amended: the single conditional subtraction keeps the
phase in the closed interval `[0, 1]` (respectively `[0, period]` for the
parametric variant) only under the additional premise that the per-sample
increment `frequency / sample_rate` lies within that interval; the upper
end is attained (the wrap fires only for phase strictly above the bound),
so the preserved range is closed, not half-open. -/
theorem claim_C3_amended :
    (∀ o : SineOscillator, 0 ≤ o.frequency / o.sample_rate →
      o.frequency / o.sample_rate ≤ 1 → 0 ≤ o.phase → o.phase ≤ 1 →
      0 ≤ o.sample.2.phase ∧ o.sample.2.phase ≤ 1) ∧
    (∀ o : SquareOscillator, 0 ≤ o.frequency / o.sample_rate →
      o.frequency / o.sample_rate ≤ 1 → 0 ≤ o.phase → o.phase ≤ 1 →
      0 ≤ o.sample.2.phase ∧ o.sample.2.phase ≤ 1) ∧
    (∀ o : ParametricOscillatorA, 0 ≤ o.frequency / o.sample_rate →
      o.frequency / o.sample_rate ≤ o.period → 0 ≤ o.phase →
      o.phase ≤ o.period →
      0 ≤ o.sample.2.phase ∧ o.sample.2.phase ≤ o.period) := by
  refine ⟨fun o h0 h1 hp0 hp1 => ?_, fun o h0 h1 hp0 hp1 => ?_,
    fun o h0 h1 hp0 hp1 => ?_⟩
  · simp only [SineOscillator.sample]
    split_ifs with h <;> constructor <;> linarith
  · simp only [SquareOscillator.sample]
    split_ifs with h <;> constructor <;> linarith
  · simp only [ParametricOscillatorA.sample]
    split_ifs with h <;> constructor <;> linarith

/-- Witness for the amended claim C3: concrete fresh oscillators at sample
rate `44100` (and, for the parametric variant, the equation
`(1,7,3,3,1,1)` with period `1000`) satisfy the premises, and the phase
after one `sample()` call stays in range. -/
theorem claim_C3_witness :
    (0 ≤ (SineOscillator.new 44100).frequency /
        (SineOscillator.new 44100).sample_rate ∧
      (SineOscillator.new 44100).frequency /
        (SineOscillator.new 44100).sample_rate ≤ 1 ∧
      0 ≤ (SineOscillator.new 44100).sample.2.phase ∧
      (SineOscillator.new 44100).sample.2.phase ≤ 1) ∧
    (0 ≤ (SquareOscillator.new 44100).sample.2.phase ∧
      (SquareOscillator.new 44100).sample.2.phase ≤ 1) ∧
    (0 ≤ (ParametricOscillatorA.new 44100
        (EquationA.mk 1 7 3 3 1 1)).sample.2.phase ∧
      (ParametricOscillatorA.new 44100
        (EquationA.mk 1 7 3 3 1 1)).sample.2.phase ≤
        (ParametricOscillatorA.new 44100
          (EquationA.mk 1 7 3 3 1 1)).period) := by
  have hsine := claim_C3_amended.1 (SineOscillator.new 44100)
    (by norm_num [SineOscillator.new]) (by norm_num [SineOscillator.new])
    (by norm_num [SineOscillator.new]) (by norm_num [SineOscillator.new])
  have hsq := claim_C3_amended.2.1 (SquareOscillator.new 44100)
    (by norm_num [SquareOscillator.new]) (by norm_num [SquareOscillator.new])
    (by norm_num [SquareOscillator.new]) (by norm_num [SquareOscillator.new])
  have hper : (ParametricOscillatorA.new 44100
      (EquationA.mk 1 7 3 3 1 1)).period = 1000 := by
    simp [ParametricOscillatorA.new, get_period_1733]
  have hpar := claim_C3_amended.2.2 (ParametricOscillatorA.new 44100
      (EquationA.mk 1 7 3 3 1 1))
    (by norm_num [ParametricOscillatorA.new])
    (by rw [hper]; norm_num [ParametricOscillatorA.new])
    (by norm_num [ParametricOscillatorA.new])
    (by rw [hper]; norm_num [ParametricOscillatorA.new])
  exact ⟨⟨by norm_num [SineOscillator.new], by norm_num [SineOscillator.new],
    hsine⟩, hsq, hpar⟩

/-- Claim C4, counterexample: at sample index `0`, the event loop consumes
a pending event whose timestamp equals `0` before sample `0` is rendered
(the loop breaks only on `timing > sample_id`), although `0` is not
strictly less than `0`: the consumption policy is "timestamp ≤ current
sample index", not "strictly less". -/
theorem claim_C4_counterexample :
    (Paramic.default.drainEvents 0 [NoteEvent.noteOff 0 5]).2 = [] ∧
    ¬ (NoteEvent.noteOff 0 5).timing < 0 := by
  constructor
  · rw [Paramic.drainEvents]
    simp [NoteEvent.timing, Paramic.drainEvents]
  · simp

/-- Claim C4 as amended: within one block iteration at sample index `s`,
the inner event loop consumes, in order, exactly the leading queue events
whose timestamp is at most `s` (not strictly less than `s`); for a queue
sorted by timestamp this is exactly the set of events with timestamp
`≤ s`, and every event with a strictly later timestamp stays queued for a
later sample index. -/
theorem claim_C4_amended (p : Paramic) (s : ℕ) (q : List NoteEvent)
    (hq : q.Sorted (fun e₁ e₂ => e₁.timing ≤ e₂.timing)) :
    (p.drainEvents s q).2 = q.filter (fun e => decide (s < e.timing)) ∧
    (p.drainEvents s q).1 =
      (q.filter (fun e => decide (e.timing ≤ s))).foldl Paramic.applyEvent p := by
  induction q generalizing p with
  | nil => simp [Paramic.drainEvents]
  | cons e rest ih =>
    rw [List.sorted_cons] at hq
    obtain ⟨hall, hrest⟩ := hq
    by_cases h : e.timing ≤ s
    · have hnot : ¬ e.timing > s := by omega
      rw [Paramic.drainEvents]
      simp only [hnot, if_false]
      have := ih (p.applyEvent e) hrest
      simp only [List.filter_cons, decide_eq_true_eq]
      rw [if_neg (by simp; omega), if_pos (by simpa using h)]
      simpa using this
    · have hgt : e.timing > s := by omega
      rw [Paramic.drainEvents]
      simp only [hgt, if_true]
      constructor
      · rw [List.filter_cons, if_pos (by simp; omega)]
        congr 1
        symm
        rw [List.filter_eq_self]
        intro a ha
        have := hall a ha
        simp
        omega
      · rw [List.filter_cons, if_neg (by simpa using h)]
        rw [List.filter_eq_nil_iff.mpr]
        · simp
        · intro a ha
          have := hall a ha
          simp
          omega

/-- Witness for the amended claim C4: a sorted two-event queue with
timestamps `0` and `2`, drained at sample index `1`, consumes exactly the
first event and leaves exactly the second queued. -/
theorem claim_C4_witness :
    ([NoteEvent.noteOff 0 3, NoteEvent.noteOff 2 4].Sorted
        (fun e₁ e₂ => e₁.timing ≤ e₂.timing)) ∧
    ((Paramic.default.drainEvents 1
        [NoteEvent.noteOff 0 3, NoteEvent.noteOff 2 4]).2 =
      [NoteEvent.noteOff 0 3, NoteEvent.noteOff 2 4].filter
        (fun e => decide (1 < e.timing)) ∧
    (Paramic.default.drainEvents 1
        [NoteEvent.noteOff 0 3, NoteEvent.noteOff 2 4]).1 =
      ([NoteEvent.noteOff 0 3, NoteEvent.noteOff 2 4].filter
        (fun e => decide (e.timing ≤ 1))).foldl Paramic.applyEvent
        Paramic.default) := by
  have hsorted : ([NoteEvent.noteOff 0 3, NoteEvent.noteOff 2 4].Sorted
      (fun e₁ e₂ => e₁.timing ≤ e₂.timing)) := by
    simp [List.sorted_cons, NoteEvent.timing]
  exact ⟨hsorted, claim_C4_amended Paramic.default 1 _ hsorted⟩

/-- Claim C5: a `NoteOff(note)` event sets the note-gain target to `0.0`
exactly when `note` equals the active note id; it never changes the active
note id or the active note frequency, and when the id does not match the
whole plugin state is left untouched (stale release is a no-op). -/
theorem claim_C5_noteoff (p : Paramic) (t note : ℕ) :
    ((p.applyEvent (NoteEvent.noteOff t note)).midi_note_gain.target =
      if note = p.midi_note_id then 0 else p.midi_note_gain.target) ∧
    (p.applyEvent (NoteEvent.noteOff t note)).midi_note_id =
      p.midi_note_id ∧
    (p.applyEvent (NoteEvent.noteOff t note)).midi_note_freq =
      p.midi_note_freq ∧
    (note ≠ p.midi_note_id →
      p.applyEvent (NoteEvent.noteOff t note) = p) := by
  refine ⟨?_, ?_, ?_, fun hne => ?_⟩ <;>
    simp only [Paramic.applyEvent] <;> split_ifs with h <;>
      simp_all [Smoother.set_target]

/-- Witness for claim C5: on the default plugin state (active note id `0`)
a `NoteOff` for the non-matching note `5` changes nothing. -/
theorem claim_C5_witness :
    (5 ≠ Paramic.default.midi_note_id) ∧
    Paramic.default.applyEvent (NoteEvent.noteOff 0 5) = Paramic.default := by
  have hne : (5 : ℕ) ≠ Paramic.default.midi_note_id := by
    simp [Paramic.default]
  exact ⟨hne, (claim_C5_noteoff Paramic.default 0 5).2.2.2 hne⟩

/-- Claim C6: a `NoteOn(note, velocity)` event unconditionally stores the
note id, stores the equal-tempered frequency of the MIDI note number
(with `midi_note_to_freq 69 = 440`), and retargets the note-gain envelope
to `velocity`, with the ramp length derived from the current sample
rate. -/
theorem claim_C6_noteon (p : Paramic) (t note : ℕ) (velocity : ℝ) :
    (p.applyEvent (NoteEvent.noteOn t note velocity)).midi_note_id = note ∧
    (p.applyEvent (NoteEvent.noteOn t note velocity)).midi_note_freq =
      midi_note_to_freq note ∧
    (p.applyEvent (NoteEvent.noteOn t note velocity)).midi_note_gain.target =
      velocity ∧
    (p.applyEvent
        (NoteEvent.noteOn t note velocity)).midi_note_gain.steps_left =
      p.sample_rate * p.midi_note_gain.smoothing_ms / 1000 ∧
    midi_note_to_freq 69 = 440 := by
  refine ⟨?_, ?_, ?_, ?_, ?_⟩ <;>
    simp [Paramic.applyEvent, Smoother.set_target, midi_note_to_freq]

/-- Claim C7: the period derivation iterates `t = 1, 2, …, 999` in order,
returns the first `t` whose position has `x > 0` and `y > 0`, and returns
`1000` when no such `t` below `1000` exists. -/
theorem claim_C7_brute_force (e : EquationA) :
    (∀ t : ℕ, 1 ≤ t → t < 1000 → e.posAt t →
      (∀ s, 1 ≤ s → s < t → ¬ e.posAt s) → e.get_period = (t : ℝ)) ∧
    ((∀ t, 1 ≤ t → t < 1000 → ¬ e.posAt t) → e.get_period = 1000) := by
  constructor
  · intro t h1 h2 h3 h4
    rw [EquationA.get_period]
    exact getPeriodFrom_eq_first e 1 t h1 h2 h3 h4
  · intro h
    rw [EquationA.get_period]
    exact getPeriodFrom_eq_1000 e 1 h

/-- Witness for claim C7: the equation `(1,2,1,6,1,1)` satisfies the search
condition at `t = 1`, and `get_period` correspondingly returns `1`. -/
theorem claim_C7_witness :
    (EquationA.mk 1 2 1 6 1 1).posAt 1 ∧
    (EquationA.mk 1 2 1 6 1 1).get_period = ((1 : ℕ) : ℝ) :=
  ⟨posAt_1261_one,
    (claim_C7_brute_force (EquationA.mk 1 2 1 6 1 1)).1 1 le_rfl
      (by norm_num) posAt_1261_one
      (fun s hs hs' => absurd (lt_of_le_of_lt hs hs') (lt_irrefl 1))⟩

/-- Claim C8: the channel-write loop stores one and the same value — the
waveform sample times the linear gain `db_to_gain_fast` of the smoothed
decibel gain — into every output channel slot: the written buffer row is a
replication of a single value, with no per-channel variation. -/
theorem claim_C8_channels (wave gain : ℝ) (channel_samples : List ℝ) :
    writeChannelSamples wave gain channel_samples =
      List.replicate channel_samples.length (wave * db_to_gain_fast gain) := by
  induction channel_samples with
  | nil => simp [writeChannelSamples]
  | cons x xs ih => simp [writeChannelSamples, List.replicate_succ] at ih ⊢


/-- Claim C9: for every coefficient assignment, including zero or negative
coefficients, `get_period` terminates with a whole-number value between
`1.0` and `1000.0` inclusive; in particular the value is strictly
positive, so the parametric oscillator's wrap range is never zero or
negative. -/
theorem claim_C9_period_range (e : EquationA) :
    (∃ n : ℕ, 1 ≤ n ∧ n ≤ 1000 ∧ e.get_period = (n : ℝ)) ∧
    0 < e.get_period := by
  obtain ⟨n, hn1, hn2, hn3⟩ := getPeriodFrom_mem_range e 1 (by norm_num)
  have hp : e.get_period = (n : ℝ) := by rw [EquationA.get_period]; exact hn3
  refine ⟨⟨n, hn1, hn2, hp⟩, ?_⟩
  rw [hp]
  exact_mod_cast Nat.lt_of_lt_of_le Nat.zero_lt_one hn1

/-- Claim C10: `reset` only clears the active note id to `0`, the active
note frequency to `1.0` and snaps the note-gain smoother to `0.0`; the
oscillator — its phase, frequency, sample rate, stored period and
equation — and the plugin sample rate are untouched, so the waveform
resumes from its pre-reset phase. -/
theorem claim_C10_reset_frame (p : Paramic) :
    p.reset.oscillator = p.oscillator ∧
    p.reset.sample_rate = p.sample_rate ∧
    p.reset.midi_note_id = 0 ∧
    p.reset.midi_note_freq = 1 ∧
    p.reset.midi_note_gain.current = 0 ∧
    p.reset.midi_note_gain.target = 0 ∧
    p.reset.midi_note_gain.smoothing_ms = p.midi_note_gain.smoothing_ms ∧
    p.reset.oscillator.phase = p.oscillator.phase ∧
    p.reset.oscillator.frequency = p.oscillator.frequency ∧
    p.reset.oscillator.sample_rate = p.oscillator.sample_rate ∧
    p.reset.oscillator.period = p.oscillator.period ∧
    p.reset.oscillator.equation = p.oscillator.equation := by
  refine ⟨rfl, rfl, rfl, rfl, ?_, ?_, ?_, rfl, rfl, rfl, rfl, rfl⟩ <;>
    simp [Paramic.reset, Smoother.reset]
